import Mathlib

/-!
Shallow embedding of `src/src/lib/Controller/api/inertial_unit.c` (Webots
controller library, inertial-unit device).  Double values are kept abstract in
a type parameter `α`: the device code only copies them, never computes with
them.  The shared binary request/answer stream is modelled as a list of typed
scalar slots, matching the codec primitives the C file calls.
-/

namespace Webots

/-- Message-tag constant. Modelled from the spec: the numeric tag values live in
`messages.h`, which is outside the provided sources; only their mutual
distinctness is observable in this device code. -/
def C_CONFIGURE : Nat := 0

/-- Message-tag constant for inbound measurement data. Modelled from the spec:
numeric value from `messages.h` (outside the provided sources); distinct from
`C_CONFIGURE`. -/
def C_INERTIAL_UNIT_DATA : Nat := 1

/-- Outbound command tag. Modelled from the spec: numeric value from
`messages.h` (outside the provided sources). -/
def C_SET_SAMPLING_PERIOD : Nat := 2

/-- One typed scalar slot of the shared binary request/answer stream, as
produced and consumed by the codec primitives (`request_read_uchar`,
`request_read_int32`, `request_read_double`, `request_write_uchar`,
`request_write_uint16`). -/
inductive Token (α : Type) where
  | uchar (b : Nat)
  | int32 (n : Int)
  | uint16 (n : Nat)
  | double (d : α)
  deriving DecidableEq

/-- The per-device private state `InertialUnit` of `inertial_unit.c`.
`lookup_table = none` models a `NULL` pointer; `some vs` models an allocated
array holding the values `vs`. -/
structure InertialUnit (α : Type) where
  enable : Bool
  sampling_period : Int
  rpy : α × α × α
  lookup_table_size : Int
  lookup_table : Option (List α)
  deriving DecidableEq

variable {α : Type}

/-- The constructor `inertial_unit_create`: all fields start at their sentinel
values; `nan` stands for the floating-point NaN sentinel stored in `rpy`. -/
def inertial_unit_create (nan : α) : InertialUnit α :=
  { enable := false
  , sampling_period := 0
  , rpy := (nan, nan, nan)
  , lookup_table := none
  , lookup_table_size := 0 }

/-- Codec primitive `request_read_uchar`. Modelled from the spec: the codec is
an external collaborator; pulling a slot of the wrong kind or reading past the
end of the stream is a framing failure, modelled as `none`. -/
def request_read_uchar : List (Token α) → Option (Nat × List (Token α))
  | Token.uchar b :: r => some (b, r)
  | _ => none

/-- Codec primitive `request_read_int32`. Modelled from the spec, as for
`request_read_uchar`. -/
def request_read_int32 : List (Token α) → Option (Int × List (Token α))
  | Token.int32 n :: r => some (n, r)
  | _ => none

/-- Codec primitive `request_read_double`. Modelled from the spec, as for
`request_read_uchar`. -/
def request_read_double : List (Token α) → Option (α × List (Token α))
  | Token.double d :: r => some (d, r)
  | _ => none

/-- The `for` loop of the `C_CONFIGURE` branch: read `count` consecutive
doubles from the stream, in stream order. -/
def read_doubles : Nat → List (Token α) → Option (List α × List (Token α))
  | 0, r => some ([], r)
  | k + 1, r =>
    match request_read_double r with
    | none => none
    | some (d, r1) =>
      match read_doubles k r1 with
      | none => none
      | some (ds, r2) => some (d :: ds, r2)

/-- Outcome of `inertial_unit_read_answer`: a decoded state plus the unread
remainder of the stream, the fatal `ROBOT_ASSERT(0)` of the default branch, or
a codec framing failure on a malformed stream. -/
inductive DecodeResult (α : Type) where
  | ok (state : InertialUnit α) (rest : List (Token α))
  | fatalAssert
  | streamError
  deriving DecidableEq

/-- The answer decoder `inertial_unit_read_answer`.  In the `C_CONFIGURE`
branch the C code stores the decoded size, frees the old table and resets the
pointer to `NULL` before testing `lookup_table_size > 0`, so the test is on
the freshly stored size. -/
def inertial_unit_read_answer (s : InertialUnit α) (r : List (Token α)) :
    DecodeResult α :=
  match request_read_uchar r with
  | none => DecodeResult.streamError
  | some (tag, r1) =>
    if tag = C_INERTIAL_UNIT_DATA then
      match request_read_double r1 with
      | none => DecodeResult.streamError
      | some (v0, r2) =>
        match request_read_double r2 with
        | none => DecodeResult.streamError
        | some (v1, r3) =>
          match request_read_double r3 with
          | none => DecodeResult.streamError
          | some (v2, r4) => DecodeResult.ok { s with rpy := (v0, v1, v2) } r4
    else if tag = C_CONFIGURE then
      match request_read_int32 r1 with
      | none => DecodeResult.streamError
      | some (n, r2) =>
        if n > 0 then
          match read_doubles (n * 3).toNat r2 with
          | none => DecodeResult.streamError
          | some (vals, r3) =>
            DecodeResult.ok
              { s with lookup_table_size := n, lookup_table := some vals } r3
        else
          DecodeResult.ok
            { s with lookup_table_size := n, lookup_table := none } r2
    else
      DecodeResult.fatalAssert

/-- Codec primitive `request_write_uchar`: appends one unsigned-char slot. -/
def request_write_uchar (b : Nat) : Token α :=
  Token.uchar b

/-- Codec primitive `request_write_uint16`. Modelled from the spec: section 6
fixes the outbound command layout as `[tag][period: unsigned 16-bit]`, so the
written slot holds the argument reduced modulo 2^16; the codec itself is
outside the provided sources. -/
def request_write_uint16 (v : Int) : Token α :=
  Token.uint16 (v.emod 65536).toNat

/-- The request writer `inertial_unit_write_request`: returns the new device
state together with the list of slots appended to the outbound stream. -/
def inertial_unit_write_request (s : InertialUnit α) :
    InertialUnit α × List (Token α) :=
  if s.enable then
    ({ s with enable := false },
      [request_write_uchar C_SET_SAMPLING_PERIOD,
        request_write_uint16 s.sampling_period])
  else
    (s, [])

/-- The remote toggle `inertial_unit_toggle_remote`. -/
def inertial_unit_toggle_remote (s : InertialUnit α) : InertialUnit α :=
  if s.sampling_period ≠ 0 then { s with enable := true } else s

/-- Which public API function reported a diagnostic on `stderr`; the C
messages embed `__FUNCTION__`, so diagnostics are function-specific. -/
inductive WbFunc where
  | enable
  | disable
  | get_sampling_period
  | get_lookup_table_size
  | get_lookup_table
  | get_roll_pitch_yaw
  | set_values
  deriving DecidableEq

/-- A diagnostic written to `stderr` by a public API function. -/
inductive ApiError where
  | negativeSamplingPeriod (fn : WbFunc)
  | invalidDeviceTag (fn : WbFunc)
  | disabledDevice (fn : WbFunc)
  deriving DecidableEq

/-- Public API `wb_inertial_unit_enable`.  The argument `dev` is the result of
resolving the device tag through `inertial_unit_get_struct` (`none` models an
invalid tag).  The negative-period check happens first, before resolution.
Returns the new resolution result together with the emitted diagnostics. -/
def wb_inertial_unit_enable (dev : Option (InertialUnit α))
    (sampling_period : Int) : Option (InertialUnit α) × List ApiError :=
  if sampling_period < 0 then
    (dev, [ApiError.negativeSamplingPeriod WbFunc.enable])
  else
    match dev with
    | some s =>
      (some { s with enable := true, sampling_period := sampling_period }, [])
    | none => (none, [ApiError.invalidDeviceTag WbFunc.enable])

/-- Public API `wb_inertial_unit_disable`: checks handle validity itself, then
delegates to `wb_inertial_unit_enable` with period 0. -/
def wb_inertial_unit_disable (dev : Option (InertialUnit α)) :
    Option (InertialUnit α) × List ApiError :=
  match dev with
  | some _ => wb_inertial_unit_enable dev 0
  | none => (none, [ApiError.invalidDeviceTag WbFunc.disable])

/-- Public API `wb_inertial_unit_get_sampling_period`. -/
def wb_inertial_unit_get_sampling_period (dev : Option (InertialUnit α)) :
    Int × List ApiError :=
  match dev with
  | some s => (s.sampling_period, [])
  | none => (0, [ApiError.invalidDeviceTag WbFunc.get_sampling_period])

/-- Public API `wb_inertial_unit_get_lookup_table_size`. -/
def wb_inertial_unit_get_lookup_table_size (dev : Option (InertialUnit α)) :
    Int × List ApiError :=
  match dev with
  | some s => (s.lookup_table_size, [])
  | none => (0, [ApiError.invalidDeviceTag WbFunc.get_lookup_table_size])

/-- Public API `wb_inertial_unit_get_lookup_table`: returns the stored table
pointer, which is `NULL` (`none`) both for an absent table and for an invalid
tag, as in the C code. -/
def wb_inertial_unit_get_lookup_table (dev : Option (InertialUnit α)) :
    Option (List α) × List ApiError :=
  match dev with
  | some s => (s.lookup_table, [])
  | none => (none, [ApiError.invalidDeviceTag WbFunc.get_lookup_table])

/-- Public API `wb_inertial_unit_get_roll_pitch_yaw`: always returns the
stored vector on a valid tag, with a usage warning when the device is not
actively sampled. -/
def wb_inertial_unit_get_roll_pitch_yaw (dev : Option (InertialUnit α)) :
    Option (α × α × α) × List ApiError :=
  match dev with
  | some s =>
    if s.sampling_period ≤ 0 then
      (some s.rpy, [ApiError.disabledDevice WbFunc.get_roll_pitch_yaw])
    else
      (some s.rpy, [])
  | none => (none, [ApiError.invalidDeviceTag WbFunc.get_roll_pitch_yaw])

/-- Remote API `wbr_inertial_unit_set_values`: overwrites the measurement
vector with the three supplied values. -/
def wbr_inertial_unit_set_values (dev : Option (InertialUnit α))
    (values : α × α × α) : Option (InertialUnit α) × List ApiError :=
  match dev with
  | some s => (some { s with rpy := values }, [])
  | none => (none, [ApiError.invalidDeviceTag WbFunc.set_values])

/-- The table-storage invariant of the data model: calibration-table storage
is present if and only if the stored table size is positive. -/
def tableConsistent (s : InertialUnit α) : Prop :=
  s.lookup_table.isSome = true ↔ 0 < s.lookup_table_size

instance (s : InertialUnit α) : Decidable (tableConsistent s) := by
  unfold tableConsistent
  infer_instance

/-- The table-storage invariant lifted through handle resolution: an invalid
handle has no state, a valid one must satisfy `tableConsistent`. -/
def optTableConsistent : Option (InertialUnit α) → Prop
  | none => True
  | some s => tableConsistent s

instance (dev : Option (InertialUnit α)) :
    Decidable (optTableConsistent dev) := by
  cases dev <;> unfold optTableConsistent <;> infer_instance

/-- C3: for every period p ≥ 0 and every valid handle, `enable` sets
`sampling_period` to p (including p = 0) and `enable` to true with no
diagnostic, and a subsequent `get_sampling_period` returns p with no
diagnostic. -/
theorem enable_then_get_sampling_period (s : InertialUnit α) (p : Int)
    (hp : 0 ≤ p) :
    wb_inertial_unit_enable (some s) p
      = (some { s with enable := true, sampling_period := p }, [])
    ∧ wb_inertial_unit_get_sampling_period
        (wb_inertial_unit_enable (some s) p).1 = (p, []) := by
  unfold wb_inertial_unit_enable wb_inertial_unit_get_sampling_period
  rw [if_neg (not_lt.mpr hp)]
  exact ⟨rfl, rfl⟩

/-- Witness for `enable_then_get_sampling_period` at the freshly created state
and period 0. -/
theorem enable_then_get_sampling_period_witness :
    wb_inertial_unit_enable (some (inertial_unit_create (0 : Int))) 0
      = (some { inertial_unit_create (0 : Int) with
                  enable := true, sampling_period := 0 }, [])
    ∧ wb_inertial_unit_get_sampling_period
        (wb_inertial_unit_enable (some (inertial_unit_create (0 : Int))) 0).1
      = (0, []) :=
  enable_then_get_sampling_period _ _ (by decide)

/-- C4: for every period p < 0 and every resolution result (valid or not),
`enable` reports the invalid-argument diagnostic and leaves the state
untouched. -/
theorem enable_negative_period_rejected (dev : Option (InertialUnit α))
    (p : Int) (hp : p < 0) :
    wb_inertial_unit_enable dev p
      = (dev, [ApiError.negativeSamplingPeriod WbFunc.enable]) := by
  unfold wb_inertial_unit_enable
  rw [if_pos hp]

/-- Witness for `enable_negative_period_rejected` at a valid handle and
period -1. -/
theorem enable_negative_period_rejected_witness :
    wb_inertial_unit_enable (some (inertial_unit_create (0 : Int))) (-1)
      = (some (inertial_unit_create (0 : Int)),
         [ApiError.negativeSamplingPeriod WbFunc.enable]) :=
  enable_negative_period_rejected _ _ (by decide)

/-- C6: any answer whose leading tag is neither `C_INERTIAL_UNIT_DATA` nor
`C_CONFIGURE` hits the `ROBOT_ASSERT(0)` default branch: the decode is fatal
and no updated state is produced. -/
theorem unknown_tag_fatal (s : InertialUnit α) (tag : Nat)
    (rest : List (Token α)) (h1 : tag ≠ C_INERTIAL_UNIT_DATA)
    (h2 : tag ≠ C_CONFIGURE) :
    inertial_unit_read_answer s (Token.uchar tag :: rest)
      = DecodeResult.fatalAssert := by
  simp [inertial_unit_read_answer, request_read_uchar, h1, h2]

/-- Witness for `unknown_tag_fatal` at tag 7. -/
theorem unknown_tag_fatal_witness :
    inertial_unit_read_answer (inertial_unit_create (0 : Int))
        [Token.uchar 7]
      = DecodeResult.fatalAssert :=
  unknown_tag_fatal _ 7 [] (by decide) (by decide)

/-- C7: the remote toggle re-arms `enable` exactly when `sampling_period` is
nonzero, and is the identity on the whole state otherwise. -/
theorem toggle_remote_characterization (s : InertialUnit α) :
    (s.sampling_period ≠ 0 →
        inertial_unit_toggle_remote s = { s with enable := true })
    ∧ (s.sampling_period = 0 → inertial_unit_toggle_remote s = s) := by
  constructor <;> intro h <;> simp [inertial_unit_toggle_remote, h]

/-- Witness for `toggle_remote_characterization`: an actively configured state
with `enable = false` gets re-armed; a period-0 state is left unchanged. -/
theorem toggle_remote_characterization_witness :
    inertial_unit_toggle_remote
        { inertial_unit_create (0 : Int) with sampling_period := 16 }
      = { { inertial_unit_create (0 : Int) with sampling_period := 16 } with
            enable := true }
    ∧ inertial_unit_toggle_remote (inertial_unit_create (0 : Int))
      = inertial_unit_create (0 : Int) :=
  ⟨(toggle_remote_characterization _).1 (by decide),
   (toggle_remote_characterization _).2 (by decide)⟩

/-- C8: decoding a Data-tagged answer reads three doubles in stream order and
stores them verbatim as the measurement vector, consuming nothing else; the
getter then returns exactly those values. -/
theorem data_decode_verbatim (s : InertialUnit α) (v0 v1 v2 : α)
    (rest : List (Token α)) :
    inertial_unit_read_answer s
        (Token.uchar C_INERTIAL_UNIT_DATA :: Token.double v0 ::
          Token.double v1 :: Token.double v2 :: rest)
      = DecodeResult.ok { s with rpy := (v0, v1, v2) } rest
    ∧ (wb_inertial_unit_get_roll_pitch_yaw
        (some { s with rpy := (v0, v1, v2) })).1 = some (v0, v1, v2) := by
  constructor
  · simp [inertial_unit_read_answer, request_read_uchar, request_read_double,
      C_INERTIAL_UNIT_DATA]
  · simp only [wb_inertial_unit_get_roll_pitch_yaw]
    split <;> rfl

/-- C9: `disable` on a valid handle is the same call as `enable` with period 0
(leaving `sampling_period = 0` and `enable = true`), and on an invalid handle
both report an invalid-tag diagnostic, each under its own function name,
without mutating anything. -/
theorem disable_equiv_enable_zero (s : InertialUnit α) :
    wb_inertial_unit_disable (some s) = wb_inertial_unit_enable (some s) 0
    ∧ (wb_inertial_unit_disable (some s)).1
      = some { s with enable := true, sampling_period := 0 }
    ∧ wb_inertial_unit_disable (none : Option (InertialUnit α))
      = (none, [ApiError.invalidDeviceTag WbFunc.disable])
    ∧ wb_inertial_unit_enable (none : Option (InertialUnit α)) 0
      = (none, [ApiError.invalidDeviceTag WbFunc.enable]) := by
  refine ⟨rfl, ?_, rfl, rfl⟩
  rfl

theorem read_doubles_map_append (vals : List α) (rest : List (Token α)) :
    read_doubles vals.length (List.map Token.double vals ++ rest)
      = some (vals, rest) := by
  induction vals with
  | nil => simp [read_doubles]
  | cons d ds ih => simp [read_doubles, request_read_double, ih]

/-- C1 (amended): decoding a Configure-tagged answer with table size n
replaces the table wholesale; for n > 0 it stores the next 3n decoded doubles
in stream order, and for n ≤ 0 it leaves the table absent while the stored
table size becomes n itself (0 only when n = 0). -/
theorem configure_decode_characterization (s : InertialUnit α) (n : Int)
    (vals : List α) (rest : List (Token α)) :
    (0 < n → vals.length = (n * 3).toNat →
      inertial_unit_read_answer s
          (Token.uchar C_CONFIGURE :: Token.int32 n ::
            (List.map Token.double vals ++ rest))
        = DecodeResult.ok
            { s with lookup_table_size := n, lookup_table := some vals } rest)
    ∧ (n ≤ 0 →
      inertial_unit_read_answer s
          (Token.uchar C_CONFIGURE :: Token.int32 n :: rest)
        = DecodeResult.ok
            { s with lookup_table_size := n, lookup_table := none } rest) := by
  constructor
  · intro hn hlen
    rw [inertial_unit_read_answer]
    simp only [request_read_uchar, request_read_int32, C_CONFIGURE,
      C_INERTIAL_UNIT_DATA]
    rw [if_neg (by decide), if_pos trivial, if_pos hn, ← hlen,
      read_doubles_map_append]
  · intro hn
    rw [inertial_unit_read_answer]
    simp only [request_read_uchar, request_read_int32, C_CONFIGURE,
      C_INERTIAL_UNIT_DATA]
    rw [if_neg (by decide), if_pos trivial, if_neg (not_lt.mpr hn)]

/-- Counterexample to C1 as stated: decoding a Configure answer with table
size -1 leaves the table absent but stores -1, not 0, as the table size, so
`get_lookup_table_size` then reports -1. -/
theorem configure_negative_size_counterexample :
    inertial_unit_read_answer (inertial_unit_create (0 : Int))
        [Token.uchar C_CONFIGURE, Token.int32 (-1)]
      = DecodeResult.ok
          { inertial_unit_create (0 : Int) with lookup_table_size := -1 } []
    ∧ (wb_inertial_unit_get_lookup_table_size
        (some { inertial_unit_create (0 : Int) with
                  lookup_table_size := -1 })).1 = -1
    ∧ ((-1 : Int) ≠ 0) := by
  refine ⟨by decide, by decide, by decide⟩

/-- Witness for `configure_decode_characterization`: a one-row table is
decoded from three doubles, and a size-0 message empties the table of a state
that had one. -/
theorem configure_decode_characterization_witness :
    inertial_unit_read_answer (inertial_unit_create (0 : Int))
        (Token.uchar C_CONFIGURE :: Token.int32 1 ::
          (List.map Token.double [10, 20, 30] ++ []))
      = DecodeResult.ok
          { inertial_unit_create (0 : Int) with
              lookup_table_size := 1, lookup_table := some [10, 20, 30] } []
    ∧ inertial_unit_read_answer
          { inertial_unit_create (0 : Int) with
              lookup_table_size := 1, lookup_table := some [10, 20, 30] }
          (Token.uchar C_CONFIGURE :: Token.int32 0 :: [])
        = DecodeResult.ok
            { { inertial_unit_create (0 : Int) with
                  lookup_table_size := 1, lookup_table := some [10, 20, 30] }
                with lookup_table_size := 0, lookup_table := none } [] :=
  ⟨(configure_decode_characterization _ _ _ _).1 (by decide) (by decide),
   (configure_decode_characterization _ _ [] _).2 (by decide)⟩

/-- C2 (amended): one invocation of the request writer on an enabled state
emits exactly one command, the `C_SET_SAMPLING_PERIOD` tag followed by the
current `sampling_period` reduced modulo 2^16 (the outbound field is unsigned
16-bit, so the value is the period itself whenever it is below 65536), and
clears `enable`; on a disabled state it emits nothing and changes nothing. -/
theorem write_request_characterization (s : InertialUnit α) :
    (s.enable = true →
      inertial_unit_write_request s
        = ({ s with enable := false },
           [Token.uchar C_SET_SAMPLING_PERIOD,
            Token.uint16 (s.sampling_period.emod 65536).toNat]))
    ∧ (s.enable = false → inertial_unit_write_request s = (s, [])) := by
  constructor <;> intro h <;>
    simp [inertial_unit_write_request, request_write_uchar,
      request_write_uint16, h]

/-- Counterexample to C2 as stated: the state reached by enabling a fresh
device with period 65536 is enabled with `sampling_period = 65536`, yet the
flush emits the 16-bit value 0, not 65536. -/
theorem write_request_truncation_counterexample :
    (wb_inertial_unit_enable (some (inertial_unit_create (0 : Int))) 65536).1
      = some { inertial_unit_create (0 : Int) with
                 enable := true, sampling_period := 65536 }
    ∧ inertial_unit_write_request
        { inertial_unit_create (0 : Int) with
            enable := true, sampling_period := 65536 }
      = ({ inertial_unit_create (0 : Int) with sampling_period := 65536 },
         [Token.uchar C_SET_SAMPLING_PERIOD, Token.uint16 0])
    ∧ ((0 : Nat) ≠ 65536) := by
  refine ⟨by decide, by decide, by decide⟩

/-- Witness for `write_request_characterization`: an enabled state with period
32 emits the tag and 32, clearing `enable`; a fresh (disabled) state emits
nothing. -/
theorem write_request_characterization_witness :
    inertial_unit_write_request
        { inertial_unit_create (0 : Int) with
            enable := true, sampling_period := 32 }
      = ({ { inertial_unit_create (0 : Int) with
               enable := true, sampling_period := 32 } with enable := false },
         [Token.uchar C_SET_SAMPLING_PERIOD,
          Token.uint16 (((32 : Int).emod 65536).toNat)])
    ∧ inertial_unit_write_request (inertial_unit_create (0 : Int))
      = (inertial_unit_create (0 : Int), []) :=
  ⟨(write_request_characterization _).1 (by decide),
   (write_request_characterization _).2 (by decide)⟩

theorem read_answer_ok_tableConsistent (s : InertialUnit α)
    (r rest : List (Token α)) (s2 : InertialUnit α)
    (h1 : tableConsistent s)
    (h : inertial_unit_read_answer s r = DecodeResult.ok s2 rest) :
    tableConsistent s2 := by
  rw [inertial_unit_read_answer] at h
  repeat' split at h
  any_goals exact DecodeResult.noConfusion h
  all_goals injection h with hs hr
  all_goals subst hs
  all_goals simp_all [tableConsistent]

/-- C5: the predicate "calibration-table storage is present iff the stored
table size is positive" holds of a freshly created state and is preserved by
answer decoding, request flushing, enable, disable, the remote toggle, and
the remote value setter. -/
theorem table_storage_invariant (nan : α) (s : InertialUnit α)
    (dev : Option (InertialUnit α)) (p : Int) (vals : α × α × α)
    (r rest : List (Token α)) (s2 : InertialUnit α) :
    tableConsistent (inertial_unit_create nan)
    ∧ (tableConsistent s →
        inertial_unit_read_answer s r = DecodeResult.ok s2 rest →
        tableConsistent s2)
    ∧ (tableConsistent s →
        tableConsistent (inertial_unit_write_request s).1)
    ∧ (optTableConsistent dev →
        optTableConsistent (wb_inertial_unit_enable dev p).1)
    ∧ (optTableConsistent dev →
        optTableConsistent (wb_inertial_unit_disable dev).1)
    ∧ (tableConsistent s → tableConsistent (inertial_unit_toggle_remote s))
    ∧ (optTableConsistent dev →
        optTableConsistent (wbr_inertial_unit_set_values dev vals).1) := by
  refine ⟨by simp [tableConsistent, inertial_unit_create],
    fun h1 h => read_answer_ok_tableConsistent s r rest s2 h1 h,
    ?_, ?_, ?_, ?_, ?_⟩
  · intro h1
    unfold inertial_unit_write_request
    split <;> simpa [tableConsistent] using h1
  · intro h1
    cases dev with
    | none =>
      by_cases hp : p < 0 <;>
        simp [wb_inertial_unit_enable, hp, optTableConsistent]
    | some s3 =>
      by_cases hp : p < 0 <;>
        simpa [wb_inertial_unit_enable, hp, optTableConsistent,
          tableConsistent] using h1
  · intro h1
    cases dev with
    | none => simp [wb_inertial_unit_disable, optTableConsistent]
    | some s3 =>
      simpa [wb_inertial_unit_disable, wb_inertial_unit_enable,
        optTableConsistent, tableConsistent] using h1
  · intro h1
    unfold inertial_unit_toggle_remote
    split <;> simpa [tableConsistent] using h1
  · intro h1
    cases dev with
    | none => simp [wbr_inertial_unit_set_values, optTableConsistent]
    | some s3 =>
      simpa [wbr_inertial_unit_set_values, optTableConsistent,
        tableConsistent] using h1

/-- Witness for `table_storage_invariant` at the freshly created state, a Data
answer carrying (4, 5, 6), period 5, and remote values (1, 2, 3). -/
theorem table_storage_invariant_witness :
    tableConsistent (inertial_unit_create (0 : Int))
    ∧ tableConsistent
        { inertial_unit_create (0 : Int) with rpy := ((4 : Int), 5, 6) }
    ∧ tableConsistent
        (inertial_unit_write_request (inertial_unit_create (0 : Int))).1
    ∧ optTableConsistent
        (wb_inertial_unit_enable (some (inertial_unit_create (0 : Int))) 5).1
    ∧ optTableConsistent
        (wb_inertial_unit_disable (some (inertial_unit_create (0 : Int)))).1
    ∧ tableConsistent
        (inertial_unit_toggle_remote (inertial_unit_create (0 : Int)))
    ∧ optTableConsistent
        (wbr_inertial_unit_set_values (some (inertial_unit_create (0 : Int)))
          (1, 2, 3)).1 := by
  have h := table_storage_invariant (0 : Int) (inertial_unit_create (0 : Int))
    (some (inertial_unit_create (0 : Int))) 5 ((1 : Int), 2, 3)
    [Token.uchar C_INERTIAL_UNIT_DATA, Token.double 4, Token.double 5,
      Token.double 6] []
    { inertial_unit_create (0 : Int) with rpy := ((4 : Int), 5, 6) }
  exact ⟨h.1, h.2.1 (by decide) (by decide), h.2.2.1 (by decide),
    h.2.2.2.1 (by decide), h.2.2.2.2.1 (by decide),
    h.2.2.2.2.2.1 (by decide), h.2.2.2.2.2.2 (by decide)⟩

/-- C10: any successful answer decode leaves `enable` and `sampling_period`
unchanged; a Data-tagged decode also leaves the calibration table and its
size unchanged, and a Configure-tagged decode also leaves the measurement
vector unchanged. -/
theorem read_answer_frame (s : InertialUnit α) (t : Nat)
    (more rest : List (Token α)) (s2 : InertialUnit α)
    (h : inertial_unit_read_answer s (Token.uchar t :: more)
          = DecodeResult.ok s2 rest) :
    s2.enable = s.enable ∧ s2.sampling_period = s.sampling_period
    ∧ (t = C_INERTIAL_UNIT_DATA →
        s2.lookup_table = s.lookup_table
        ∧ s2.lookup_table_size = s.lookup_table_size)
    ∧ (t = C_CONFIGURE → s2.rpy = s.rpy) := by
  rw [inertial_unit_read_answer] at h
  simp only [request_read_uchar] at h
  by_cases h1 : t = C_INERTIAL_UNIT_DATA
  · rw [if_pos h1] at h
    repeat' split at h
    any_goals exact DecodeResult.noConfusion h
    injection h with hs hr
    subst hs
    exact ⟨rfl, rfl, fun _ => ⟨rfl, rfl⟩,
      fun ht => absurd (h1.symm.trans ht) (by decide)⟩
  · rw [if_neg h1] at h
    by_cases h2 : t = C_CONFIGURE
    · rw [if_pos h2] at h
      repeat' split at h
      any_goals exact DecodeResult.noConfusion h
      all_goals injection h with hs hr
      all_goals subst hs
      all_goals
        exact ⟨rfl, rfl, fun ht => absurd (h2.symm.trans ht) (by decide),
          fun _ => rfl⟩
    · rw [if_neg h2] at h
      exact DecodeResult.noConfusion h

/-- Witness for `read_answer_frame` at a Data answer carrying (4, 5, 6)
decoded into the freshly created state. -/
theorem read_answer_frame_witness :
    ({ inertial_unit_create (0 : Int) with
         rpy := ((4 : Int), 5, 6) }.enable
        = (inertial_unit_create (0 : Int)).enable)
    ∧ ({ inertial_unit_create (0 : Int) with
           rpy := ((4 : Int), 5, 6) }.sampling_period
        = (inertial_unit_create (0 : Int)).sampling_period)
    ∧ (C_INERTIAL_UNIT_DATA = C_INERTIAL_UNIT_DATA →
        ({ inertial_unit_create (0 : Int) with
             rpy := ((4 : Int), 5, 6) }.lookup_table
          = (inertial_unit_create (0 : Int)).lookup_table)
        ∧ ({ inertial_unit_create (0 : Int) with
               rpy := ((4 : Int), 5, 6) }.lookup_table_size
            = (inertial_unit_create (0 : Int)).lookup_table_size))
    ∧ (C_INERTIAL_UNIT_DATA = C_CONFIGURE →
        ({ inertial_unit_create (0 : Int) with
             rpy := ((4 : Int), 5, 6) }.rpy
          = (inertial_unit_create (0 : Int)).rpy)) :=
  read_answer_frame (inertial_unit_create (0 : Int)) C_INERTIAL_UNIT_DATA
    [Token.double 4, Token.double 5, Token.double 6] []
    { inertial_unit_create (0 : Int) with rpy := ((4 : Int), 5, 6) }
    (by decide)

end Webots
